import Mathlib

/-!
Shallow embedding of gpg-alias (src/main.rs, src/cli.rs).

The program resolves aliases to OpenPGP key ids and protects the mapping with
a TOFU signature scheme.  External effects (gpgme engine calls, filesystem,
stdin/stdout) are modelled as explicit environment records whose fields hold
the result each external call would return, and every embedded function also
returns the list of external events it performs, in order.
-/

namespace GpgAlias

/-- Unicode code points with the White_Space property, the set trimmed by
Rust's `str::trim_end` (via `char::is_whitespace`). -/
def whitespaceCodes : List Nat :=
  [0x9, 0xA, 0xB, 0xC, 0xD, 0x20, 0x85, 0xA0, 0x1680,
   0x2000, 0x2001, 0x2002, 0x2003, 0x2004, 0x2005, 0x2006, 0x2007,
   0x2008, 0x2009, 0x200A, 0x2028, 0x2029, 0x202F, 0x205F, 0x3000]

def isRustWhitespace (c : Char) : Bool := whitespaceCodes.contains c.toNat

/-- Rust `str::trim_end`: removes every trailing whitespace character. -/
def trimEnd (s : String) : String :=
  ⟨(s.data.reverse.dropWhile isRustWhitespace).reverse⟩

/-- Rust `str::to_ascii_lowercase`: maps only ASCII A-Z to a-z. -/
def toAsciiLowercase (s : String) : String :=
  ⟨s.data.map (fun c => if 65 ≤ c.toNat ∧ c.toNat ≤ 90 then Char.ofNat (c.toNat + 32) else c)⟩

/-- One signature reported by `gpgme` `verify_opaque`:
`valid` embeds `sig.summary().contains(SignatureSummary::VALID)`,
`fingerprint` embeds the `Result` of `sig.fingerprint()` (`none` = `Err`). -/
structure SigInfo where
  valid : Bool
  fingerprint : Option String
deriving DecidableEq

/-- Result of a successful engine-level `verify_opaque` call:
`plaintext` is the `std::str::from_utf8` decode of the plaintext buffer
(`none` = invalid UTF-8), `signatures` the reported signature list. -/
structure VerifyResult where
  plaintext : Option String
  signatures : List SigInfo
deriving DecidableEq

/-- A key returned by `ctx.get_key`: the `Result` of `key.fingerprint()` and
the `Result`s of `sub.fingerprint()` for each of `key.subkeys()`. -/
structure Key where
  fingerprint : Option String
  subkeyFingerprints : List (Option String)
deriving DecidableEq

/-- External events the program can perform, in the order it performs them. -/
inductive Event
  | createDirAll (path : String)
  | fileOpen (path : String)
  | fileRead (path : String)
  | engineVerifyOpaque
  | engineGetKey (id : String)
  | engineAddSigner
  | engineSignClear (payload : String)
  | fileCreate (path : String)
  | fileWrite (path : String)
  | promptConsent
  | emitKeyId (s : String)
deriving DecidableEq

/-- Outcome of `check_existing_signature`.  `ok` is `Ok(true)`; each other
constructor is one distinct `error!`+`Err(1)` site of the source, in source
order: "could not open signature file", "could not read signature file",
"could not created gpgme context", "could not verify signature",
"could not create utf-8 string", "invalid signed content: key does not match",
"invalid number of signatures", "invalid signature",
"invalid fingerprint on key signature was made by",
"could not get signing key", "signature made by wrong key". -/
inductive VOutcome
  | ok
  | openError
  | readError
  | ctxError
  | verificationError
  | utf8Error
  | contentMismatch
  | wrongSigCount
  | invalidSignature
  | noFingerprint
  | missingSigningKey
  | wrongSigner
deriving DecidableEq

/-- Environment for `check_existing_signature`: results of its external calls.
`openOk`/`readOk` are `File::open`/`read_to_end`, `ctxOk` is
`Context::from_protocol`, `verifyRes` is `ctx.verify_opaque` (`none` = `Err`),
`getKeyRes` is `ctx.get_key(&config.signing.key)` (`none` = `Err`). -/
structure VerifierEnv where
  openOk : Bool
  readOk : Bool
  ctxOk : Bool
  verifyRes : Option VerifyResult
  getKeyRes : Option Key
deriving DecidableEq

/-- Embeds `check_existing_signature(config, id, sig_path)` from src/main.rs.
Checks run in source order; the source tests each failure condition and
early-returns, which appears here as the else-branch of the positive test. -/
def check_existing_signature (env : VerifierEnv) (signingKey : String)
    (id : String) (sigPath : String) : VOutcome × List Event :=
  if env.openOk then
    if env.readOk then
      if env.ctxOk then
        match env.verifyRes with
        | none => (.verificationError, [.fileOpen sigPath, .fileRead sigPath, .engineVerifyOpaque])
        | some res =>
          match res.plaintext with
          | none => (.utf8Error, [.fileOpen sigPath, .fileRead sigPath, .engineVerifyOpaque])
          | some s =>
            if trimEnd s = id then
              match res.signatures with
              | [sig] =>
                if sig.valid then
                  match sig.fingerprint with
                  | none =>
                    (.noFingerprint, [.fileOpen sigPath, .fileRead sigPath, .engineVerifyOpaque])
                  | some fp =>
                    match env.getKeyRes with
                    | none =>
                      (.missingSigningKey,
                       [.fileOpen sigPath, .fileRead sigPath, .engineVerifyOpaque,
                        .engineGetKey signingKey])
                    | some key =>
                      if key.fingerprint ≠ some fp ∧
                          ∀ x ∈ key.subkeyFingerprints, x ≠ some fp then
                        (.wrongSigner,
                         [.fileOpen sigPath, .fileRead sigPath, .engineVerifyOpaque,
                          .engineGetKey signingKey])
                      else
                        (.ok,
                         [.fileOpen sigPath, .fileRead sigPath, .engineVerifyOpaque,
                          .engineGetKey signingKey])
                else (.invalidSignature, [.fileOpen sigPath, .fileRead sigPath, .engineVerifyOpaque])
              | _ => (.wrongSigCount, [.fileOpen sigPath, .fileRead sigPath, .engineVerifyOpaque])
            else (.contentMismatch, [.fileOpen sigPath, .fileRead sigPath, .engineVerifyOpaque])
      else (.ctxError, [.fileOpen sigPath, .fileRead sigPath])
    else (.readError, [.fileOpen sigPath])
  else (.openError, [.fileOpen sigPath])

/-- Outcome of `create_signature`.  `ok` is `Ok(true)`; each other constructor
is one distinct `Err(1)` site of the source in order: stdout flush failure,
stdin read failure, "creating a new signature was not authorised",
"could not created gpgme context", "missing signing key",
"could not add signing key as a signer", "could not create signature",
"could not create <path>", "could not write signature file". -/
inductive COutcome
  | ok
  | flushError
  | readError
  | consentRefused
  | ctxError
  | missingKey
  | addSignerError
  | signError
  | fileCreateError
  | writeError
deriving DecidableEq

/-- Environment for `create_signature`: `flushOk` is `stdout().flush()`,
`readLine` the `Result` of `stdin().read_line` (the line read, still carrying
its terminator; on end-of-input Rust leaves the buffer empty, i.e. `some ""`),
`ctxOk` is `Context::from_protocol`, `getKeyRes` is `ctx.get_key`,
`addSignerOk` is `ctx.add_signer`, `signOk` is `ctx.sign_clear`,
`fileCreateOk` is `File::create`, `writeOk` is `file.write_all`. -/
structure CreatorEnv where
  flushOk : Bool
  readLine : Option String
  ctxOk : Bool
  getKeyRes : Option Key
  addSignerOk : Bool
  signOk : Bool
  fileCreateOk : Bool
  writeOk : Bool
deriving DecidableEq

/-- Embeds `create_signature(config, alias, id, sig_path)` from src/main.rs:
warn, prompt, read consent, and only on an affirmative answer look up the
signing key, clear-sign the key id and persist the artifact. -/
def create_signature (env : CreatorEnv) (signingKey : String)
    (_aliasName : String) (id : String) (sigPath : String) : COutcome × List Event :=
  if env.flushOk then
    match env.readLine with
    | none => (.readError, [.promptConsent])
    | some resp =>
      if toAsciiLowercase (trimEnd resp) = "y" then
        if env.ctxOk then
          match env.getKeyRes with
          | none => (.missingKey, [.promptConsent, .engineGetKey signingKey])
          | some _ =>
            if env.addSignerOk then
              if env.signOk then
                if env.fileCreateOk then
                  if env.writeOk then
                    (.ok,
                     [.promptConsent, .engineGetKey signingKey, .engineAddSigner,
                      .engineSignClear id, .fileCreate sigPath, .fileWrite sigPath])
                  else
                    (.writeError,
                     [.promptConsent, .engineGetKey signingKey, .engineAddSigner,
                      .engineSignClear id, .fileCreate sigPath])
                else
                  (.fileCreateError,
                   [.promptConsent, .engineGetKey signingKey, .engineAddSigner,
                    .engineSignClear id])
              else
                (.signError, [.promptConsent, .engineGetKey signingKey, .engineAddSigner])
            else (.addSignerError, [.promptConsent, .engineGetKey signingKey])
        else (.ctxError, [.promptConsent])
      else (.consentRefused, [.promptConsent])
  else (.flushError, [])

/-- `[signing]` table of the configuration. -/
structure Signing where
  enabled : Bool
  key : String

/-- Parsed configuration; the `HashMap<String, String>` of aliases is embedded
as an association list queried with `List.lookup`. -/
structure Config where
  signing : Signing
  aliases : List (String × String)

/-- Environment for `check_signature`: `dataDir` is `dirs::data_dir()`,
`createDirOk` the `create_dir_all` on `<data_dir>/gpg-alias`,
`artifactExists` the `alias_sig.exists()` probe, plus the sub-environments
of the verifier and creator paths. -/
structure TrustEnv where
  dataDir : Option String
  createDirOk : Bool
  artifactExists : Bool
  verifier : VerifierEnv
  creator : CreatorEnv

/-- `check_existing_signature` returns `Result<bool, i32>` in the source:
`Ok(true)` on success, `Err(1)` at every failure site. -/
def vOutcomeResult (o : VOutcome) : Except Int Bool :=
  if o = .ok then .ok true else .error 1

/-- `create_signature` likewise returns `Ok(true)` or `Err(1)`. -/
def cOutcomeResult (o : COutcome) : Except Int Bool :=
  if o = .ok then .ok true else .error 1

/-- Embeds `check_signature(config, alias, id)` from src/main.rs: resolve the
data dir, ensure `<data_dir>/gpg-alias` exists, derive `<alias>.asc`, then
dispatch on artifact existence to the verifier or the creator. -/
def check_signature (cfg : Config) (env : TrustEnv) (aliasName : String)
    (id : String) : Except Int Bool × List Event :=
  match env.dataDir with
  | none => (.error 1, [])
  | some d =>
    let dir := d ++ "/gpg-alias"
    if env.createDirOk then
      let sigPath := dir ++ "/" ++ aliasName ++ ".asc"
      if env.artifactExists then
        let r := check_existing_signature env.verifier cfg.signing.key id sigPath
        (vOutcomeResult r.1, .createDirAll dir :: r.2)
      else
        let r := create_signature env.creator cfg.signing.key aliasName id sigPath
        (cOutcomeResult r.1, .createDirAll dir :: r.2)
    else (.error 1, [.createDirAll dir])

/-- One iteration of the alias loop in `inner` (src/main.rs): look the alias
up in the mapping (`error!("no such alias found"); return 1` when absent),
run `check_signature` only when `config.signing.enabled`, then emit the
key id (plain or `-r`-prefixed; both are the same emission event here). -/
def handleAlias (cfg : Config) (env : TrustEnv) (aliasName : String) :
    Except Int String × List Event :=
  match cfg.aliases.lookup aliasName with
  | none => (.error 1, [])
  | some keyId =>
    if cfg.signing.enabled then
      match check_signature cfg env aliasName keyId with
      | (.error e, evs) => (.error e, evs)
      | (.ok _, evs) => (.ok keyId, evs ++ [.emitKeyId keyId])
    else (.ok keyId, [.emitKeyId keyId])

/-- The alias loop of `inner` together with the code that follows it
(src/main.rs): the requested aliases are processed in order, early-returning
the `Err` code of the first failing alias; only when the whole loop completes
does recipients mode flush stdout, returning 1 on flush failure
(`error!("could not flush stdout")`), and `inner` ends with exit code 0.
The nil case is reached exactly when every alias was processed, so the
post-loop flush sits there; `recipients` is `matches.is_present("recipients")`
and `flushOk` the result of `std::io::stdout().flush()`. -/
def innerRun (cfg : Config) (envOf : String → TrustEnv)
    (recipients : Bool) (flushOk : Bool) : List String → Int × List Event
  | [] =>
    if recipients then
      if flushOk then (0, []) else (1, [])
    else (0, [])
  | a :: rest =>
    match handleAlias cfg (envOf a) a with
    | (.error e, evs) => (e, evs)
    | (.ok _, evs) =>
      let r := innerRun cfg envOf recipients flushOk rest
      (r.1, evs ++ r.2)

/-- A requested alias succeeds: it resolves in the mapping and, when signing
is enabled, its trust decision returns `Ok`. -/
def aliasOk (cfg : Config) (env : TrustEnv) (a : String) : Prop :=
  ∃ k, cfg.aliases.lookup a = some k ∧
    (cfg.signing.enabled = true → (check_signature cfg env a k).1 = .ok true)

/-- A fully failing environment, used to instantiate witnesses. -/
def envNone : TrustEnv :=
  ⟨none, false, false, ⟨false, false, false, none, none⟩,
   ⟨false, none, false, none, false, false, false, false⟩⟩

/-- Embeds the config-file bootstrap of `inner` (src/main.rs): the config path
is `<config_dir>/gpg-alias/gpg-alias.toml`; the file is probed with
`exists()`, opened with write+read+create (no truncate), and the bundled
default is written only when the file did not exist; then the file is read
back for parsing.  The filesystem is an association list path → contents;
the error-free path is modelled (each I/O failure in the source just logs
and returns exit code 1). -/
def configSetup (defaultConfig : String) (fs : List (String × String))
    (configBase : String) : List (String × String) × String :=
  let path := configBase ++ "/gpg-alias" ++ "/gpg-alias.toml"
  match fs.lookup path with
  | some contents => (fs, contents)
  | none => ((path, defaultConfig) :: fs, defaultConfig)

/-- Embeds the clap validation of src/cli.rs: the positional `alias` argument
is `required_unless("sign-all")`, so an invocation is accepted when aliases
are present or the `-s`/`--sign-all` flag is given. -/
def cliAccepts (signAll : Bool) (aliasArgs : Option (List String)) : Bool :=
  aliasArgs.isSome || signAll

/-- How `inner` starts: either running with an alias list, or panicking. -/
inductive Startup
  | panicked (msg : String)
  | running (aliases : List String)
deriving DecidableEq

/-- Embeds `matches.values_of("alias").expect("required clap argument")` in
`inner` (src/main.rs): `values_of` yields `None` when no alias argument was
given, and `expect` panics with the given message. -/
def startupAliases (aliasArgs : Option (List String)) : Startup :=
  match aliasArgs with
  | some l => .running l
  | none => .panicked "required clap argument"

/-- Modelled from the spec's words, for comparison in claim C1 only: trimming
"a single trailing line terminator" from the plaintext (one `\n`, or one
`\r\n`). -/
def trimSingleLineTerminator (s : String) : String :=
  match s.data.reverse with
  | '\n' :: '\r' :: rest => ⟨rest.reverse⟩
  | '\n' :: rest => ⟨rest.reverse⟩
  | _ => s

/-- C1 counterexample: an artifact whose plaintext is the key id followed by
two spaces and two newlines is accepted by `check_existing_signature`
(Rust `trim_end` removes all trailing whitespace), although its plaintext
trimmed of a single trailing line terminator does not equal the key id —
refuting the claim that such a plaintext is rejected. -/
theorem c1_trim_counterexample :
    (check_existing_signature
        ⟨true, true, true, some ⟨some "ABCD  \n\n", [⟨true, some "F1"⟩]⟩, some ⟨some "F1", []⟩⟩
        "SIGKEY" "ABCD" "p").1 = VOutcome.ok
    ∧ trimSingleLineTerminator "ABCD  \n\n" ≠ "ABCD" := by
  constructor
  · decide
  · decide

/-- C1 (amended): for every artifact whose engine-level verification succeeds,
the verifier accepts the plaintext only if it decodes as valid UTF-8 and,
after trimming all trailing whitespace (Rust `trim_end`), equals the expected
key id exactly; a decode failure or a trimmed mismatch yields the
corresponding rejection. -/
theorem c1_trim_amended :
    ∀ (ps : Option String) (sigs : List SigInfo) (keyRes : Option Key) (sk id p : String),
      ((check_existing_signature ⟨true, true, true, some ⟨ps, sigs⟩, keyRes⟩ sk id p).1 =
          VOutcome.ok → ∃ s, ps = some s ∧ trimEnd s = id) ∧
      (ps = none →
        (check_existing_signature ⟨true, true, true, some ⟨ps, sigs⟩, keyRes⟩ sk id p).1 =
          VOutcome.utf8Error) ∧
      (∀ s, ps = some s → trimEnd s ≠ id →
        (check_existing_signature ⟨true, true, true, some ⟨ps, sigs⟩, keyRes⟩ sk id p).1 =
          VOutcome.contentMismatch) := by
  intro ps sigs keyRes sk id p
  refine ⟨?_, ?_, ?_⟩
  · intro h
    cases ps with
    | none => simp [check_existing_signature] at h
    | some s =>
      refine ⟨s, rfl, ?_⟩
      by_contra hne
      simp [check_existing_signature, hne] at h
  · intro h
    subst h
    simp [check_existing_signature]
  · intro s hps hne
    subst hps
    simp [check_existing_signature, hne]

/-- Witness for `c1_trim_amended` at a concrete input. -/
theorem c1_trim_amended_witness :
    (check_existing_signature ⟨true, true, true, some ⟨some "XY\n", []⟩, none⟩
        "K" "AB" "p").1 = VOutcome.contentMismatch :=
  (c1_trim_amended (some "XY\n") [] none "K" "AB" "p").2.2 "XY\n" rfl (by decide)

/-- C2: once content, count, validity and fingerprint resolution pass and the
signing key resolves, verification succeeds iff the signature's fingerprint
equals the designated key's primary fingerprint or the fingerprint of one of
its subkeys; otherwise the outcome is the wrong-signer rejection. -/
theorem c2_signer_match :
    ∀ (sk id p s fp : String) (key : Key), trimEnd s = id →
      (((check_existing_signature
            ⟨true, true, true, some ⟨some s, [⟨true, some fp⟩]⟩, some key⟩ sk id p).1 =
          VOutcome.ok ↔
        key.fingerprint = some fp ∨ some fp ∈ key.subkeyFingerprints) ∧
       ((check_existing_signature
            ⟨true, true, true, some ⟨some s, [⟨true, some fp⟩]⟩, some key⟩ sk id p).1 ≠
          VOutcome.ok →
        (check_existing_signature
            ⟨true, true, true, some ⟨some s, [⟨true, some fp⟩]⟩, some key⟩ sk id p).1 =
          VOutcome.wrongSigner)) := by
  intro sk id p s fp key hs
  simp only [check_existing_signature, hs, if_true]
  by_cases hc : key.fingerprint ≠ some fp ∧ ∀ x ∈ key.subkeyFingerprints, x ≠ some fp
  · rw [if_pos hc]
    constructor
    · constructor
      · intro h
        simp at h
      · rintro (h | h)
        · exact absurd h hc.1
        · exact absurd rfl (hc.2 _ h)
    · intro _
      rfl
  · rw [if_neg hc]
    push_neg at hc
    constructor
    · constructor
      · intro _
        by_cases hfp : key.fingerprint = some fp
        · exact Or.inl hfp
        · rcases hc hfp with ⟨x, hx, hxe⟩
          exact Or.inr (hxe ▸ hx)
      · intro _
        rfl
    · intro h
      exact absurd rfl h

/-- Witness for `c2_signer_match`: a signature made by a subkey of the
designated key is accepted. -/
theorem c2_signer_match_witness :
    (check_existing_signature
        ⟨true, true, true, some ⟨some "KID\n", [⟨true, some "SUBFP"⟩]⟩,
         some ⟨some "PRIMFP", [some "SUBFP"]⟩⟩ "K" "KID" "p").1 = VOutcome.ok :=
  ((c2_signer_match "K" "KID" "p" "KID\n" "SUBFP" ⟨some "PRIMFP", [some "SUBFP"]⟩
      (by decide)).1).mpr (Or.inr (by decide))

/-- C5: the verifier applies its checks in the fixed order engine-verify,
content match (decode + compare), signature count, validity flag, fingerprint
resolution, signing-key lookup, signer comparison; each conjunct fixes one
failing check and quantifies over everything downstream of it, so the first
failing check alone determines the outcome; the listed rejection outcomes are
pairwise distinct. -/
theorem c5_check_order :
    (∀ sk id p keyRes,
      (check_existing_signature ⟨true, true, true, none, keyRes⟩ sk id p).1 =
        VOutcome.verificationError) ∧
    (∀ sk id p keyRes sigs,
      (check_existing_signature ⟨true, true, true, some ⟨none, sigs⟩, keyRes⟩ sk id p).1 =
        VOutcome.utf8Error) ∧
    (∀ sk id p keyRes sigs s, trimEnd s ≠ id →
      (check_existing_signature ⟨true, true, true, some ⟨some s, sigs⟩, keyRes⟩ sk id p).1 =
        VOutcome.contentMismatch) ∧
    (∀ sk id p keyRes sigs s, trimEnd s = id → sigs.length ≠ 1 →
      (check_existing_signature ⟨true, true, true, some ⟨some s, sigs⟩, keyRes⟩ sk id p).1 =
        VOutcome.wrongSigCount) ∧
    (∀ sk id p keyRes s (sig : SigInfo), trimEnd s = id → sig.valid = false →
      (check_existing_signature ⟨true, true, true, some ⟨some s, [sig]⟩, keyRes⟩ sk id p).1 =
        VOutcome.invalidSignature) ∧
    (∀ sk id p keyRes s, trimEnd s = id →
      (check_existing_signature ⟨true, true, true, some ⟨some s, [⟨true, none⟩]⟩, keyRes⟩
          sk id p).1 = VOutcome.noFingerprint) ∧
    (∀ sk id p s fp, trimEnd s = id →
      (check_existing_signature ⟨true, true, true, some ⟨some s, [⟨true, some fp⟩]⟩, none⟩
          sk id p).1 = VOutcome.missingSigningKey) ∧
    (∀ sk id p s fp (key : Key), trimEnd s = id →
      key.fingerprint ≠ some fp → (∀ x ∈ key.subkeyFingerprints, x ≠ some fp) →
      (check_existing_signature ⟨true, true, true, some ⟨some s, [⟨true, some fp⟩]⟩, some key⟩
          sk id p).1 = VOutcome.wrongSigner) ∧
    [VOutcome.verificationError, VOutcome.utf8Error, VOutcome.contentMismatch,
     VOutcome.wrongSigCount, VOutcome.invalidSignature, VOutcome.noFingerprint,
     VOutcome.missingSigningKey, VOutcome.wrongSigner, VOutcome.ok].Nodup := by
  refine ⟨?_, ?_, ?_, ?_, ?_, ?_, ?_, ?_, by decide⟩
  · intro sk id p keyRes
    simp [check_existing_signature]
  · intro sk id p keyRes sigs
    simp [check_existing_signature]
  · intro sk id p keyRes sigs s hne
    simp [check_existing_signature, hne]
  · intro sk id p keyRes sigs s hs hlen
    match sigs, hlen with
    | [], _ => simp [check_existing_signature, hs]
    | [x], h => exact absurd rfl h
    | x :: y :: rest, _ => simp [check_existing_signature, hs]
  · intro sk id p keyRes s sig hs hv
    simp [check_existing_signature, hs, hv]
  · intro sk id p keyRes s hs
    simp [check_existing_signature, hs]
  · intro sk id p s fp hs
    simp [check_existing_signature, hs]
  · intro sk id p s fp key hs h1 h2
    simp only [check_existing_signature, hs, if_true]
    rw [if_pos ⟨h1, h2⟩]

/-- Witness for `c5_check_order`: a content mismatch is reported even when the
downstream signature data is degenerate (no signatures, no signing key). -/
theorem c5_check_order_witness :
    (check_existing_signature ⟨true, true, true, some ⟨some "XY", []⟩, none⟩
        "K" "AB" "p").1 = VOutcome.contentMismatch :=
  c5_check_order.2.2.1 "K" "AB" "p" none [] "XY" (by decide)

/-- C7: once the plaintext matches the expected key id, verification succeeds
only with exactly one signature on the artifact; zero signatures or two or
more signatures both yield the wrong-signature-count rejection. -/
theorem c7_signature_count :
    ∀ (sk id p s : String) (keyRes : Option Key) (sigs : List SigInfo), trimEnd s = id →
      ((sigs.length ≠ 1 →
        (check_existing_signature ⟨true, true, true, some ⟨some s, sigs⟩, keyRes⟩ sk id p).1 =
          VOutcome.wrongSigCount) ∧
       ((check_existing_signature ⟨true, true, true, some ⟨some s, sigs⟩, keyRes⟩ sk id p).1 =
          VOutcome.ok → sigs.length = 1)) := by
  intro sk id p s keyRes sigs hs
  constructor
  · intro hlen
    match sigs, hlen with
    | [], _ => simp [check_existing_signature, hs]
    | [x], h => exact absurd rfl h
    | x :: y :: rest, _ => simp [check_existing_signature, hs]
  · intro h
    match sigs, h with
    | [], h => simp [check_existing_signature, hs] at h
    | [x], _ => rfl
    | x :: y :: rest, h => simp [check_existing_signature, hs] at h

/-- Witness for `c7_signature_count`: two signatures are rejected with the
wrong-signature-count reason. -/
theorem c7_signature_count_witness :
    (check_existing_signature
        ⟨true, true, true, some ⟨some "AB\n", [⟨true, some "F"⟩, ⟨true, some "F"⟩]⟩,
         some ⟨some "F", []⟩⟩ "K" "AB" "p").1 = VOutcome.wrongSigCount :=
  (c7_signature_count "K" "AB" "p" "AB\n" (some ⟨some "F", []⟩)
      [⟨true, some "F"⟩, ⟨true, some "F"⟩] (by decide)).1 (by decide)

/-- Every event the verifier path can perform: it only opens and reads the
artifact and calls the engine; it never writes or prompts. -/
theorem check_existing_events_shape :
    ∀ env sk id p e, e ∈ (check_existing_signature env sk id p).2 →
      e = Event.fileOpen p ∨ e = Event.fileRead p ∨ e = Event.engineVerifyOpaque ∨
      e = Event.engineGetKey sk := by
  intro env sk id p e h
  unfold check_existing_signature at h
  repeat' split at h
  all_goals try simp_all
  all_goals tauto

/-- Every event the creator path can perform: it prompts and, after consent,
calls the engine and writes the artifact; it never opens or reads one. -/
theorem create_signature_events_shape :
    ∀ env sk an id p e, e ∈ (create_signature env sk an id p).2 →
      e = Event.promptConsent ∨ e = Event.engineGetKey sk ∨ e = Event.engineAddSigner ∨
      e = Event.engineSignClear id ∨ e = Event.fileCreate p ∨ e = Event.fileWrite p := by
  intro env sk an id p e h
  unfold create_signature at h
  repeat' split at h
  all_goals try simp_all
  all_goals tauto

/-- C3: in the anchor-creation path, any operator response whose trailing-
whitespace-trimmed, ASCII-lowercased form is not exactly "y" (the empty line
left by end-of-input included) yields the consent-refused failure with only
the prompt performed — no artifact file is created or written; a read error
likewise fails without writing; and any run of the creator that creates or
writes a file must have read a response that trims and lowercases to "y". -/
theorem c3_consent_gate :
    (∀ (resp : String) (c a s f w : Bool) (gk : Option Key) (sk an id p : String),
      toAsciiLowercase (trimEnd resp) ≠ "y" →
      create_signature ⟨true, some resp, c, gk, a, s, f, w⟩ sk an id p =
        (COutcome.consentRefused, [Event.promptConsent])) ∧
    (∀ (c a s f w : Bool) (gk : Option Key) (sk an id p : String),
      create_signature ⟨true, none, c, gk, a, s, f, w⟩ sk an id p =
        (COutcome.readError, [Event.promptConsent])) ∧
    (∀ env (sk an id p pth : String),
      (Event.fileCreate pth ∈ (create_signature env sk an id p).2 ∨
       Event.fileWrite pth ∈ (create_signature env sk an id p).2) →
      ∃ r, env.readLine = some r ∧ toAsciiLowercase (trimEnd r) = "y") := by
  refine ⟨?_, ?_, ?_⟩
  · intro resp c a s f w gk sk an id p hne
    simp [create_signature, hne]
  · intro c a s f w gk sk an id p
    simp [create_signature]
  · intro env sk an id p pth h
    obtain ⟨fl, rl, c, gk, a, s, f, w⟩ := env
    cases fl with
    | false => simp [create_signature] at h
    | true =>
      cases rl with
      | none => simp [create_signature] at h
      | some resp =>
        by_cases hy : toAsciiLowercase (trimEnd resp) = "y"
        · exact ⟨resp, rfl, hy⟩
        · simp [create_signature, hy] at h

/-- Witness for `c3_consent_gate`: the empty response (what end-of-input
leaves in the buffer) is a refusal and performs only the prompt. -/
theorem c3_consent_gate_witness :
    create_signature ⟨true, some "", true, none, true, true, true, true⟩ "K" "work" "KID" "p" =
      (COutcome.consentRefused, [Event.promptConsent]) :=
  (c3_consent_gate.1 "" true true true true true none "K" "work" "KID" "p")
      (by decide)

/-- With the data dir resolved, the directory created and an artifact present,
`check_signature` is exactly the verifier run plus the directory-creation
event. -/
theorem check_signature_exists_eq (cfg : Config) (d : String) (ve : VerifierEnv)
    (ce : CreatorEnv) (an id : String) :
    check_signature cfg ⟨some d, true, true, ve, ce⟩ an id =
      (vOutcomeResult (check_existing_signature ve cfg.signing.key id
          (d ++ "/gpg-alias" ++ "/" ++ an ++ ".asc")).1,
       Event.createDirAll (d ++ "/gpg-alias") ::
         (check_existing_signature ve cfg.signing.key id
           (d ++ "/gpg-alias" ++ "/" ++ an ++ ".asc")).2) := rfl

/-- With the data dir resolved, the directory created and no artifact present,
`check_signature` is exactly the creator run plus the directory-creation
event. -/
theorem check_signature_missing_eq (cfg : Config) (d : String) (ve : VerifierEnv)
    (ce : CreatorEnv) (an id : String) :
    check_signature cfg ⟨some d, true, false, ve, ce⟩ an id =
      (cOutcomeResult (create_signature ce cfg.signing.key an id
          (d ++ "/gpg-alias" ++ "/" ++ an ++ ".asc")).1,
       Event.createDirAll (d ++ "/gpg-alias") ::
         (create_signature ce cfg.signing.key an id
           (d ++ "/gpg-alias" ++ "/" ++ an ++ ".asc")).2) := rfl

/-- C8: with signing enabled, the trust decision dispatches on artifact
existence alone — an existing artifact routes to the verifier, whose outcome
(and event trace) is returned, and never prompts, creates or writes a file;
a missing artifact routes to the creator, whose outcome is returned, and
never verifies or reads an artifact. -/
theorem c8_existence_dispatch :
    ∀ (cfg : Config) (d : String) (ve : VerifierEnv) (ce : CreatorEnv) (an id : String),
      (check_signature cfg ⟨some d, true, true, ve, ce⟩ an id =
        (vOutcomeResult (check_existing_signature ve cfg.signing.key id
            (d ++ "/gpg-alias" ++ "/" ++ an ++ ".asc")).1,
         Event.createDirAll (d ++ "/gpg-alias") ::
           (check_existing_signature ve cfg.signing.key id
             (d ++ "/gpg-alias" ++ "/" ++ an ++ ".asc")).2)) ∧
      (check_signature cfg ⟨some d, true, false, ve, ce⟩ an id =
        (cOutcomeResult (create_signature ce cfg.signing.key an id
            (d ++ "/gpg-alias" ++ "/" ++ an ++ ".asc")).1,
         Event.createDirAll (d ++ "/gpg-alias") ::
           (create_signature ce cfg.signing.key an id
             (d ++ "/gpg-alias" ++ "/" ++ an ++ ".asc")).2)) ∧
      (Event.promptConsent ∉ (check_signature cfg ⟨some d, true, true, ve, ce⟩ an id).2) ∧
      (∀ pth, Event.fileCreate pth ∉ (check_signature cfg ⟨some d, true, true, ve, ce⟩ an id).2 ∧
              Event.fileWrite pth ∉ (check_signature cfg ⟨some d, true, true, ve, ce⟩ an id).2) ∧
      (Event.engineVerifyOpaque ∉ (check_signature cfg ⟨some d, true, false, ve, ce⟩ an id).2) ∧
      (∀ pth, Event.fileOpen pth ∉ (check_signature cfg ⟨some d, true, false, ve, ce⟩ an id).2 ∧
              Event.fileRead pth ∉ (check_signature cfg ⟨some d, true, false, ve, ce⟩ an id).2) := by
  intro cfg d ve ce an id
  refine ⟨check_signature_exists_eq cfg d ve ce an id,
          check_signature_missing_eq cfg d ve ce an id, ?_, ?_, ?_, ?_⟩
  · rw [check_signature_exists_eq]
    intro h
    rcases List.mem_cons.mp h with h | h
    · simp at h
    · rcases check_existing_events_shape _ _ _ _ _ h with h1 | h1 | h1 | h1 <;> simp at h1
  · intro pth
    constructor
    · rw [check_signature_exists_eq]
      intro h
      rcases List.mem_cons.mp h with h | h
      · simp at h
      · rcases check_existing_events_shape _ _ _ _ _ h with h1 | h1 | h1 | h1 <;> simp at h1
    · rw [check_signature_exists_eq]
      intro h
      rcases List.mem_cons.mp h with h | h
      · simp at h
      · rcases check_existing_events_shape _ _ _ _ _ h with h1 | h1 | h1 | h1 <;> simp at h1
  · rw [check_signature_missing_eq]
    intro h
    rcases List.mem_cons.mp h with h | h
    · simp at h
    · rcases create_signature_events_shape _ _ _ _ _ _ h with h1 | h1 | h1 | h1 | h1 | h1 <;>
        simp at h1
  · intro pth
    constructor
    · rw [check_signature_missing_eq]
      intro h
      rcases List.mem_cons.mp h with h | h
      · simp at h
      · rcases create_signature_events_shape _ _ _ _ _ _ h with h1 | h1 | h1 | h1 | h1 | h1 <;>
          simp at h1
    · rw [check_signature_missing_eq]
      intro h
      rcases List.mem_cons.mp h with h | h
      · simp at h
      · rcases create_signature_events_shape _ _ _ _ _ _ h with h1 | h1 | h1 | h1 | h1 | h1 <;>
          simp at h1

/-- Witness for `c8_existence_dispatch`: with an existing artifact and a
failing verifier environment the decision is the verifier's rejection. -/
theorem c8_existence_dispatch_witness :
    check_signature ⟨⟨true, "K"⟩, [("a", "KID")]⟩
        ⟨some "D", true, true, ⟨false, false, false, none, none⟩,
         ⟨false, none, false, none, false, false, false, false⟩⟩ "a" "KID" =
      (Except.error 1,
       [Event.createDirAll ("D" ++ "/gpg-alias"),
        Event.fileOpen ("D" ++ "/gpg-alias" ++ "/" ++ "a" ++ ".asc")]) := by
  have h := (c8_existence_dispatch ⟨⟨true, "K"⟩, [("a", "KID")]⟩ "D"
      ⟨false, false, false, none, none⟩
      ⟨false, none, false, none, false, false, false, false⟩ "a" "KID").1
  rw [h]
  rfl

/-- C6: when the signing policy is disabled, an alias that resolves to a key
id is emitted immediately: the per-alias step succeeds and performs no
filesystem or engine event — its whole trace is the key-id emission. -/
theorem c6_disabled_shortcircuit :
    ∀ (cfg : Config) (env : TrustEnv) (a k : String),
      cfg.signing.enabled = false → cfg.aliases.lookup a = some k →
      handleAlias cfg env a = (Except.ok k, [Event.emitKeyId k]) := by
  intro cfg env a k he hl
  simp [handleAlias, hl, he]

/-- Witness for `c6_disabled_shortcircuit` on a concrete disabled config. -/
theorem c6_disabled_shortcircuit_witness :
    handleAlias ⟨⟨false, "K"⟩, [("work", "1111AAAA")]⟩ envNone "work" =
      (Except.ok "1111AAAA", [Event.emitKeyId "1111AAAA"]) :=
  c6_disabled_shortcircuit ⟨⟨false, "K"⟩, [("work", "1111AAAA")]⟩ envNone
    "work" "1111AAAA" rfl (by decide)

/-- Every trust decision is either `Ok(true)` or `Err(1)`: all failure sites
of `check_signature` and its callees return the exit code 1. -/
theorem check_signature_ok_or_err (cfg : Config) (env : TrustEnv) (an id : String) :
    (check_signature cfg env an id).1 = Except.ok true ∨
    (check_signature cfg env an id).1 = Except.error 1 := by
  unfold check_signature vOutcomeResult cOutcomeResult
  repeat' split
  all_goals try simp_all
  all_goals tauto

/-- The per-alias step either succeeds with the alias's key id — exactly when
the alias resolves and the (enabled) trust decision succeeds — or fails with
exit code 1. -/
theorem handleAlias_dichotomy (cfg : Config) (env : TrustEnv) (a : String) :
    (∃ k evs, handleAlias cfg env a = (Except.ok k, evs) ∧ aliasOk cfg env a) ∨
    ((handleAlias cfg env a).1 = Except.error 1 ∧ ¬ aliasOk cfg env a) := by
  cases hl : cfg.aliases.lookup a with
  | none =>
    right
    constructor
    · simp [handleAlias, hl]
    · rintro ⟨k, hk, -⟩
      rw [hl] at hk
      exact Option.noConfusion hk
  | some k =>
    cases he : cfg.signing.enabled with
    | false =>
      left
      refine ⟨k, [Event.emitKeyId k], by simp [handleAlias, hl, he], k, hl, fun h => ?_⟩
      rw [he] at h
      exact Bool.noConfusion h
    | true =>
      rcases hcs : check_signature cfg env a k with ⟨r, evs⟩
      rcases check_signature_ok_or_err cfg env a k with hr | hr <;> rw [hcs] at hr
      · left
        refine ⟨k, evs ++ [Event.emitKeyId k], ?_, k, hl, fun _ => by rw [hcs]; exact hr⟩
        simp only at hr
        subst hr
        simp [handleAlias, hl, he, hcs]
      · right
        simp only at hr
        subst hr
        constructor
        · simp [handleAlias, hl, he, hcs]
        · rintro ⟨k', hk', himp⟩
          rw [hl] at hk'
          injection hk' with hk'
          subst hk'
          have := himp he
          rw [hcs] at this
          exact Except.noConfusion this

/-- Exit code of `inner` from the alias loop on: 0 iff every requested alias
succeeds and the post-loop recipients-mode stdout flush does not fail,
1 otherwise. -/
theorem innerRun_code (cfg : Config) (envOf : String → TrustEnv)
    (recipients flushOk : Bool) (aliases : List String) :
    ((innerRun cfg envOf recipients flushOk aliases).1 = 0 ↔
      ((∀ a ∈ aliases, aliasOk cfg (envOf a) a) ∧ (recipients = true → flushOk = true))) ∧
    ((innerRun cfg envOf recipients flushOk aliases).1 = 1 ↔
      ¬ ((∀ a ∈ aliases, aliasOk cfg (envOf a) a) ∧ (recipients = true → flushOk = true))) := by
  induction aliases with
  | nil => cases recipients <;> cases flushOk <;> simp [innerRun]
  | cons a rest ih =>
    rcases handleAlias_dichotomy cfg (envOf a) a with ⟨k, evs, heq, hok⟩ | ⟨herr, hnot⟩
    · simp only [innerRun, heq, List.forall_mem_cons]
      constructor
      · constructor
        · intro h
          rcases ih.1.mp h with ⟨hrest, hf⟩
          exact ⟨⟨hok, hrest⟩, hf⟩
        · rintro ⟨⟨-, hrest⟩, hf⟩
          exact ih.1.mpr ⟨hrest, hf⟩
      · constructor
        · rintro h ⟨⟨-, hrest⟩, hf⟩
          exact (ih.2.mp h) ⟨hrest, hf⟩
        · intro h
          exact ih.2.mpr (fun hx => h ⟨⟨hok, hx.1⟩, hx.2⟩)
    · rcases hh : handleAlias cfg (envOf a) a with ⟨r, evs⟩
      rw [hh] at herr
      simp only at herr
      subst herr
      simp only [innerRun, hh, List.forall_mem_cons]
      constructor
      · constructor
        · intro h
          exact absurd h (by decide)
        · rintro ⟨⟨ha, -⟩, -⟩
          exact absurd ha hnot
      · constructor
        · rintro - ⟨⟨ha, -⟩, -⟩
          exact hnot ha
        · intro _
          trivial

/-- A failing alias aborts the batch: the result is exit code 1 with only the
failing alias's events, whatever aliases follow it and whatever the post-loop
flush would do. -/
theorem innerRun_abort (cfg : Config) (envOf : String → TrustEnv)
    (recipients flushOk : Bool) (a : String) (rest : List String) :
    ¬ aliasOk cfg (envOf a) a →
    innerRun cfg envOf recipients flushOk (a :: rest) =
      (1, (handleAlias cfg (envOf a) a).2) := by
  intro hna
  rcases handleAlias_dichotomy cfg (envOf a) a with ⟨k, evs, heq, hok⟩ | ⟨herr, -⟩
  · exact absurd hok hna
  · rcases hh : handleAlias cfg (envOf a) a with ⟨r, evs⟩
    rw [hh] at herr
    simp only at herr
    subst herr
    simp [innerRun, hh]

/-- C9: `inner` (from the alias loop on) exits with code 0 exactly when every
requested alias resolves, (when signing is enabled) its trust decision
succeeds, and the post-loop recipients-mode stdout flush (main.rs:113-118)
does not fail; any failure — an unresolved alias, a failed trust decision,
or that flush I/O error — exits with code 1, and the first failing alias
aborts the remainder of the batch: nothing after it is processed. -/
theorem c9_exit_codes :
    ∀ (cfg : Config) (envOf : String → TrustEnv) (recipients flushOk : Bool)
      (aliases : List String),
      ((innerRun cfg envOf recipients flushOk aliases).1 = 0 ↔
        ((∀ a ∈ aliases, aliasOk cfg (envOf a) a) ∧ (recipients = true → flushOk = true))) ∧
      ((innerRun cfg envOf recipients flushOk aliases).1 = 1 ↔
        ¬ ((∀ a ∈ aliases, aliasOk cfg (envOf a) a) ∧ (recipients = true → flushOk = true))) ∧
      (∀ a rest, ¬ aliasOk cfg (envOf a) a →
        innerRun cfg envOf recipients flushOk (a :: rest) =
          (1, (handleAlias cfg (envOf a) a).2)) :=
  fun cfg envOf recipients flushOk aliases =>
    ⟨(innerRun_code cfg envOf recipients flushOk aliases).1,
     (innerRun_code cfg envOf recipients flushOk aliases).2,
     fun a rest h => innerRun_abort cfg envOf recipients flushOk a rest h⟩

/-- Witness for `c9_exit_codes`: an alias absent from the mapping aborts the
whole batch with exit code 1, the later alias never processed, even in
recipients mode with a flush that would succeed. -/
theorem c9_exit_codes_witness :
    innerRun ⟨⟨false, "K"⟩, [("b", "KID")]⟩ (fun _ => envNone) true true
      ["missing", "b"] = (1, []) := by
  have h := (c9_exit_codes ⟨⟨false, "K"⟩, [("b", "KID")]⟩ (fun _ => envNone) true true
      ["missing", "b"]).2.2 "missing" ["b"]
      (by rintro ⟨k, hk, -⟩; simp [List.lookup] at hk)
  simpa using h

/-- C4: the CLI accepts an invocation with the batch-anchor flag and no alias
arguments (the positional argument is `required_unless("sign-all")`), but
`inner` then panics at `values_of("alias").expect("required clap argument")`
instead of processing every alias of the mapping — batch-anchor mode is
declared but never implemented. -/
theorem c4_sign_all_unimplemented :
    cliAccepts true none = true ∧
    startupAliases none = Startup.panicked "required clap argument" :=
  ⟨rfl, rfl⟩

/-- C10: on startup, when `<config_dir>/gpg-alias/gpg-alias.toml` does not
exist, the bundled default configuration is written to it and the run
proceeds on that default; when the file exists, the filesystem is unchanged
and its stored contents are what is read back for parsing. -/
theorem c10_config_bootstrap :
    ∀ (dc : String) (fs : List (String × String)) (base : String),
      (fs.lookup (base ++ "/gpg-alias" ++ "/gpg-alias.toml") = none →
        configSetup dc fs base =
          ((base ++ "/gpg-alias" ++ "/gpg-alias.toml", dc) :: fs, dc)) ∧
      (∀ c, fs.lookup (base ++ "/gpg-alias" ++ "/gpg-alias.toml") = some c →
        configSetup dc fs base = (fs, c)) := by
  intro dc fs base
  constructor
  · intro h
    simp [configSetup, h]
  · intro c h
    simp [configSetup, h]

/-- Witness for `c10_config_bootstrap`: on an empty filesystem the config file
is created with the default contents and those contents are read back. -/
theorem c10_config_bootstrap_witness :
    configSetup "DEFAULT" [] "B" =
      ([("B" ++ "/gpg-alias" ++ "/gpg-alias.toml", "DEFAULT")], "DEFAULT") :=
  (c10_config_bootstrap "DEFAULT" [] "B").1 rfl

end GpgAlias
